import Mathlib

/-!
Shallow embedding of `feincms/module/medialibrary/models.py`: the media-library
file-type registry and classifier (`MediaFileBase.filetypes`,
`register_filetypes`, `determine_file_type`), the `MediaFileBase.save` pipeline
(type classification, best-effort file-size read, EXIF-based image rotation
with its catch-all fallback, superseded-file cleanup), and `Category.save`
slug generation.

External effects (file storage, the image library, logging, the ORM) are made
explicit: the environment a save runs in is a `SaveEnv` value recording what
the external calls would return, and the effects a save performs are returned
in a `SaveEffects` value.
-/

namespace Medialibrary

/-- One entry of the class-level type registry `MediaFileBase.filetypes`:
a `(type_key, type_name, type_test)` triple. -/
structure FileTypeEntry where
  key : String
  label : String
  test : String → Bool

/-- Lowercase a string character-wise; models Python `str.lower()` /
`re.IGNORECASE` for the ASCII file names the predicates are built from. -/
def lowerList (f : String) : List Char :=
  f.toList.map Char.toLower

/-- Models `re.compile(r"\.(e1|e2|...)$", re.IGNORECASE).search(f)` for a list
of alternative extensions `e1, e2, ...`: the pattern matches at the end of the
string, or just before a trailing newline (Python `$` semantics). -/
def reSearchExt (exts : List String) (f : String) : Bool :=
  let l := lowerList f
  exts.any fun e =>
    (("." ++ e).toList.isSuffixOf l) || ((("." ++ e).toList ++ ['\n']).isSuffixOf l)

/-- Models `f.lower().endswith(ext)` where `ext` includes the dot. -/
def lowerEndsWithExt (ext : String) (f : String) : Bool :=
  ext.toList.isSuffixOf (lowerList f)

/-- `('image', _('Image'), lambda f: re.compile(r'\.(bmp|jpe?g|jp2|jxr|gif|png|tiff?)$', re.IGNORECASE).search(f))` -/
def image_entry : FileTypeEntry :=
  ⟨"image", "Image",
    fun f => reSearchExt ["bmp", "jpg", "jpeg", "jp2", "jxr", "gif", "png", "tif", "tiff"] f⟩

/-- `('video', _('Video'), lambda f: re.compile(r'\.(mov|m[14]v|mp4|avi|mpe?g|qt|ogv|wmv)$', re.IGNORECASE).search(f))` -/
def video_entry : FileTypeEntry :=
  ⟨"video", "Video",
    fun f => reSearchExt ["mov", "m1v", "m4v", "mp4", "avi", "mpg", "mpeg", "qt", "ogv", "wmv"] f⟩

/-- `('audio', _('Audio'), lambda f: re.compile(r'\.(au|mp3|m4a|wma|oga|ram|wav)$', re.IGNORECASE).search(f))` -/
def audio_entry : FileTypeEntry :=
  ⟨"audio", "Audio",
    fun f => reSearchExt ["au", "mp3", "m4a", "wma", "oga", "ram", "wav"] f⟩

/-- `('pdf', _('PDF document'), lambda f: f.lower().endswith('.pdf'))` -/
def pdf_entry : FileTypeEntry :=
  ⟨"pdf", "PDF document", fun f => lowerEndsWithExt ".pdf" f⟩

/-- `('swf', _('Flash'), lambda f: f.lower().endswith('.swf'))` -/
def swf_entry : FileTypeEntry :=
  ⟨"swf", "Flash", fun f => lowerEndsWithExt ".swf" f⟩

/-- `('txt', _('Text'), lambda f: f.lower().endswith('.txt'))` -/
def txt_entry : FileTypeEntry :=
  ⟨"txt", "Text", fun f => lowerEndsWithExt ".txt" f⟩

/-- `('rtf', _('Rich Text'), lambda f: f.lower().endswith('.rtf'))` -/
def rtf_entry : FileTypeEntry :=
  ⟨"rtf", "Rich Text", fun f => lowerEndsWithExt ".rtf" f⟩

/-- `('zip', _('Zip archive'), lambda f: f.lower().endswith('.zip'))` -/
def zip_entry : FileTypeEntry :=
  ⟨"zip", "Zip archive", fun f => lowerEndsWithExt ".zip" f⟩

/-- `('doc', _('Microsoft Word'), lambda f: re.compile(r'\.docx?$', re.IGNORECASE).search(f))` -/
def doc_entry : FileTypeEntry :=
  ⟨"doc", "Microsoft Word", fun f => reSearchExt ["doc", "docx"] f⟩

/-- `('xls', _('Microsoft Excel'), lambda f: re.compile(r'\.xlsx?$', re.IGNORECASE).search(f))` -/
def xls_entry : FileTypeEntry :=
  ⟨"xls", "Microsoft Excel", fun f => reSearchExt ["xls", "xlsx"] f⟩

/-- `('ppt', _('Microsoft PowerPoint'), lambda f: re.compile(r'\.pptx?$', re.IGNORECASE).search(f))` -/
def ppt_entry : FileTypeEntry :=
  ⟨"ppt", "Microsoft PowerPoint", fun f => reSearchExt ["ppt", "pptx"] f⟩

/-- `('other', _('Binary'), lambda f: True)  # Must be last` -/
def other_entry : FileTypeEntry :=
  ⟨"other", "Binary", fun _ => true⟩

/-- The registry resulting from the module-level
`MediaFileBase.register_filetypes(...)` call at the bottom of the file. -/
def default_filetypes : List FileTypeEntry :=
  [image_entry, video_entry, audio_entry, pdf_entry, swf_entry, txt_entry,
   rtf_entry, zip_entry, doc_entry, xls_entry, ppt_entry, other_entry]

/-- `MediaFileBase.register_filetypes`: `cls.filetypes[0:0] = types` prepends
the new triples in front of the existing registry. (The derived
`filetypes_dict` and field choices are not needed by any claim.) -/
def register_filetypes (types filetypes : List FileTypeEntry) : List FileTypeEntry :=
  types ++ filetypes

/-- `MediaFileBase.determine_file_type`: walk the registry and return the key
of the first entry whose test matches; after the loop, `self.filetypes[-1][0]`
returns the last entry's key, raising `IndexError` (here `none`) when the
registry is empty. -/
def determine_file_type (filetypes : List FileTypeEntry) (name : String) : Option String :=
  match filetypes.find? (fun t => t.test name) with
  | some t => some t.key
  | none => filetypes.getLast?.map (fun t => t.key)

/-- Outcome of reading `self.file.size`: either the size, or one of the
`OSError / IOError / ValueError` exceptions the `save` code catches. -/
inductive SizeResult where
  | ok (n : Int)
  | err
deriving DecidableEq

/-- What the image library does during `save` for this file.
`opens = false` means both `Image.open(self.file)` and
`Image.open(self.file.path)` raise `OSError`/`IOError`.
`exif = none` means `image._getexif()` raises (`AttributeError`, `IOError`,
`KeyError`) or returns a falsy value; `exif = some o` means a truthy EXIF
dict was returned whose orientation tag 274 is `o` (`exif.get(274)`). -/
structure ImageEnv where
  opens : Bool
  exif : Option (Option Int)
deriving DecidableEq

/-- The external world a single `MediaFileBase.save` call runs in:
the current time (`datetime.now()`), the result of the file-size read, and
the image library's behaviour. -/
structure SaveEnv where
  now : Nat
  sizeResult : SizeResult
  image : ImageEnv
deriving DecidableEq

/-- The fields of a `MediaFileBase` instance that `save` reads or writes.
`original_file_name` is the `_original_file_name` attribute: `none` when the
attribute is unset (no file at construction). -/
structure MediaFileState where
  id : Option Nat
  created : Option Nat
  fileName : String
  type : String
  file_size : Option Int
  original_file_name : Option String
deriving DecidableEq

/-- The externally visible effects of one `save` call: whether the file-size
error was logged, the rotation applied when the image was rotated and written
back in place (`image.save(self.file.path)`), and the storage deletes issued
(`self.file.storage.delete(...)`). -/
structure SaveEffects where
  sizeErrorLogged : Bool
  rotatedBy : Option Nat
  deletedFiles : List String
deriving DecidableEq

/-- `MediaFileBase.__init__`: `if self.file: self._original_file_name =
self.file.name` — the attribute is set only when the file field is truthy,
i.e. its name is non-empty. -/
def init_original_file_name (fileName : String) : Option String :=
  if fileName ≠ "" then some fileName else none

/-- Python truthiness of `self.id` (`None` and `0` are falsy). -/
def idTruthy : Option Nat → Bool
  | none => false
  | some n => decide (n ≠ 0)

/-- `if not self.id and not self.created: self.created = datetime.now()`. -/
def createdStep (env : SaveEnv) (s : MediaFileState) : Option Nat :=
  if idTruthy s.id = false ∧ s.created = none then some env.now else s.created

/-- `if self.file: try: self.file_size = self.file.size except (OSError,
IOError, ValueError): logging.error(...)`. Returns the new `file_size` field
and whether the error was logged. -/
def sizeStep (env : SaveEnv) (s : MediaFileState) : Option Int × Bool :=
  if s.fileName = "" then (s.file_size, false)
  else
    match env.sizeResult with
    | SizeResult.ok n => (some n, false)
    | SizeResult.err => (s.file_size, true)

/-- The orientation-to-rotation mapping in `save`:
`orientation == 3 → 180`, `== 6 → 270`, `== 8 → 90`, else `0`. -/
def rotationFor (orientation : Option Int) : Nat :=
  if orientation = some 3 then 180
  else if orientation = some 6 then 270
  else if orientation = some 8 then 90
  else 0

/-- The `if self.type == 'image':` block of `save`. Input is the type computed
from the file name; output is the final type together with the rotation
applied (when the image was rotated and overwritten), or `none` when the
fallback call `determine_file_type('***')` itself raises on an empty
registry. On open failure the `except (OSError, IOError)` handler runs
`self.type = self.determine_file_type('***')`. -/
def imageStep (filetypes : List FileTypeEntry) (env : SaveEnv) (ty : String) :
    Option (String × Option Nat) :=
  if ty = "image" then
    if env.image.opens then
      match env.image.exif with
      | some orientation =>
        let rotation := rotationFor orientation
        if rotation ≠ 0 then some (ty, some rotation) else some (ty, none)
      | none => some (ty, none)
    else
      match determine_file_type filetypes "***" with
      | some ty2 => some (ty2, none)
      | none => none
  else some (ty, none)

/-- `if getattr(self, '_original_file_name', None): if self.file.name !=
self._original_file_name: self.file.storage.delete(self._original_file_name)`.
Returns the list of storage deletes issued. -/
def deleteStep (s : MediaFileState) : List String :=
  match s.original_file_name with
  | some orig => if orig ≠ "" ∧ s.fileName ≠ orig then [orig] else []
  | none => []

/-- `MediaFileBase.save`: set `created` if unset, re-derive `type` from
`self.file.name`, best-effort size read, image open / EXIF rotation with
catch-all fallback, delete the superseded file, then delegate to the ORM.
`none` models an uncaught `IndexError` from `determine_file_type` on an
empty registry. -/
def save (filetypes : List FileTypeEntry) (env : SaveEnv) (s : MediaFileState) :
    Option (MediaFileState × SaveEffects) :=
  (determine_file_type filetypes s.fileName).bind fun ty =>
    (imageStep filetypes env ty).map fun fr =>
      ({ s with created := createdStep env s
                type := fr.1
                file_size := (sizeStep env s).1 },
       { sizeErrorLogged := (sizeStep env s).2
         rotatedBy := fr.2
         deletedFiles := deleteStep s })

/-- A `Category` record: the fields its `save` touches. -/
structure Category where
  title : String
  slug : String
deriving DecidableEq

/-- `\w` of the regexes inside Django's `slugify` after its ASCII encoding
step: `[A-Za-z0-9_]`. -/
def isWordChar (c : Char) : Bool :=
  c.isAlphanum || c = '_'

/-- `\s`: ASCII whitespace. -/
def isSpaceChar (c : Char) : Bool :=
  c = ' ' || c = '\t' || c = '\n' || c = '\r' || c = '\x0b' || c = '\x0c'

/-- Collapse each run of hyphens (runs of `[-\s]` were first mapped to
hyphens) into a single hyphen: the `re.sub('[-\s]+', '-', value)` step. -/
def dedupDash : List Char → List Char
  | [] => []
  | [c] => [c]
  | c :: d :: rest =>
    if c = '-' && d = '-' then dedupDash (d :: rest)
    else c :: dedupDash (d :: rest)

/-- Modelled from the spec: `django.template.defaultfilters.slugify`, the
external framework helper `Category.save` delegates to; its repository source
is not under `src/`. Per its documented behaviour it removes characters
outside `[\w\s-]`, strips surrounding whitespace, lowercases, and replaces
runs of whitespace or hyphens with a single hyphen (ASCII inputs). -/
def slugify (value : String) : String :=
  let kept := value.toList.filter (fun c => isWordChar c || isSpaceChar c || c = '-')
  let stripped := ((kept.dropWhile isSpaceChar).reverse.dropWhile isSpaceChar).reverse
  let lowered := stripped.map Char.toLower
  let dashed := lowered.map (fun c => if isSpaceChar c || c = '-' then '-' else c)
  String.mk (dedupDash dashed)

/-- `Category.save`: `if not self.slug: self.slug = slugify(self.title)`,
then delegate to the ORM. -/
def Category.save (c : Category) : Category :=
  if c.slug = "" then { c with slug := slugify c.title } else c

/-! Concrete inputs used by the witness and counterexample theorems below. -/

/-- A user-registered entry matching `.jpg` names, for exercising registry
precedence (the default `image` entry also matches such names). -/
def custom_entry : FileTypeEntry :=
  ⟨"customimg", "Custom image", fun f => lowerEndsWithExt ".jpg" f⟩

/-- Environment in which both image opens raise. -/
def envOpenFail : SaveEnv :=
  { now := 0, sizeResult := SizeResult.ok 7, image := { opens := false, exif := none } }

/-- A fresh media file whose name classifies as `image`. -/
def mfPicture : MediaFileState :=
  { id := none, created := none, fileName := "picture.jpg", type := "",
    file_size := none, original_file_name := none }

/-- Environment with a successful size read and no usable EXIF. -/
def envPlain : SaveEnv :=
  { now := 0, sizeResult := SizeResult.ok 3, image := { opens := true, exif := none } }

/-- A persisted record whose file was replaced: the current name differs from
the one remembered at construction. -/
def mfReplaced : MediaFileState :=
  { id := some 1, created := some 0, fileName := "new.txt", type := "txt",
    file_size := none, original_file_name := some "old.txt" }

/-- The state `mfReplaced` reaches after `save` in `envPlain`. -/
def mfReplacedSaved : MediaFileState :=
  { id := some 1, created := some 0, fileName := "new.txt", type := "txt",
    file_size := some 3, original_file_name := some "old.txt" }

/-- The effects of saving `mfReplaced` in `envPlain`. -/
def effReplaced : SaveEffects :=
  { sizeErrorLogged := false, rotatedBy := none, deletedFiles := ["old.txt"] }

/-- Environment whose image opens and reports EXIF orientation 6. -/
def envExif6 : SaveEnv :=
  { now := 0, sizeResult := SizeResult.ok 9, image := { opens := true, exif := some (some 6) } }

/-- A fresh media file whose name classifies as `image` (jpeg variant). -/
def mfPhoto : MediaFileState :=
  { id := none, created := none, fileName := "photo.jpeg", type := "",
    file_size := none, original_file_name := none }

/-- The state `mfPhoto` reaches after `save` in `envExif6`. -/
def mfPhotoSaved : MediaFileState :=
  { id := none, created := some 0, fileName := "photo.jpeg", type := "image",
    file_size := some 9, original_file_name := none }

/-- The effects of saving `mfPhoto` in `envExif6`: rotated by 270 degrees. -/
def effPhoto : SaveEffects :=
  { sizeErrorLogged := false, rotatedBy := some 270, deletedFiles := [] }

/-- Environment in which the file-size read raises. -/
def envSizeErr : SaveEnv :=
  { now := 0, sizeResult := SizeResult.err, image := { opens := true, exif := none } }

/-- A persisted record that already holds a non-null `file_size`. -/
def mfSized : MediaFileState :=
  { id := some 1, created := some 0, fileName := "data.zip", type := "zip",
    file_size := some 42, original_file_name := some "data.zip" }

/-! Helper lemmas about the classifier. -/

lemma find?_split {α : Type} (p : α → Bool) (l₁ : List α) (t : α) (l₂ : List α)
    (hl : ∀ u ∈ l₁, p u = false) (ht : p t = true) :
    (l₁ ++ t :: l₂).find? p = some t := by
  induction l₁ with
  | nil => simpa using List.find?_cons_of_pos _ ht
  | cons u us ih =>
    have hu : ¬ p u = true := by simp [hl u (by simp)]
    rw [List.cons_append, List.find?_cons_of_neg _ hu]
    exact ih fun v hv => hl v (by simp [hv])

lemma find?_append_of_some {α : Type} {p : α → Bool} {l₁ : List α} {t : α}
    (l₂ : List α) (h : l₁.find? p = some t) : (l₁ ++ l₂).find? p = some t := by
  induction l₁ with
  | nil => simp at h
  | cons u us ih =>
    by_cases hu : p u = true
    · rw [List.find?_cons_of_pos _ hu] at h
      rw [List.cons_append, List.find?_cons_of_pos _ hu]
      exact h
    · rw [List.find?_cons_of_neg _ hu] at h
      rw [List.cons_append, List.find?_cons_of_neg _ hu]
      exact ih h

lemma determine_of_split (l₁ : List FileTypeEntry) (t : FileTypeEntry)
    (l₂ : List FileTypeEntry) (name : String)
    (hl : ∀ u ∈ l₁, u.test name = false) (ht : t.test name = true) :
    determine_file_type (l₁ ++ t :: l₂) name = some t.key := by
  unfold determine_file_type
  rw [find?_split _ _ _ _ hl ht]

lemma determine_of_no_match (fts : List FileTypeEntry) (name : String)
    (h : ∀ t ∈ fts, t.test name = false) :
    determine_file_type fts name = fts.getLast?.map (fun t => t.key) := by
  unfold determine_file_type
  rw [List.find?_eq_none.mpr fun x hx => by simp [h x hx]]

/-! Claim theorems about the classifier and the registry. -/

/-- C1: `determine_file_type` walks the registry front-to-back and returns the
type key of the first entry whose predicate matches the name; if no predicate
matches it returns the key of the last registry entry, and in the default
registry that last entry is the catch-all `other`, whose predicate matches
every name. -/
theorem determine_file_type_first_match_and_fallback
    (fts : List FileTypeEntry) (name : String) :
    (∀ l₁ t l₂, fts = l₁ ++ t :: l₂ → (∀ u ∈ l₁, u.test name = false) →
      t.test name = true → determine_file_type fts name = some t.key)
    ∧ ((∀ t ∈ fts, t.test name = false) →
      determine_file_type fts name = fts.getLast?.map (fun t => t.key))
    ∧ default_filetypes.getLast?.map (fun t => t.key) = some "other"
    ∧ (∀ n, default_filetypes.getLast?.map (fun t => t.test n) = some true) := by
  refine ⟨?_, determine_of_no_match fts name, by decide, fun n => rfl⟩
  intro l₁ t l₂ hsplit hl ht
  rw [hsplit]
  exact determine_of_split l₁ t l₂ name hl ht

/-- Witness for C1 at a concrete input: the head entry of the default registry
matches `x.bmp`, so classification returns its key `image`. -/
theorem determine_file_type_first_match_witness :
    determine_file_type default_filetypes "x.bmp" = some "image" :=
  (determine_file_type_first_match_and_fallback default_filetypes "x.bmp").1
    [] image_entry
    [video_entry, audio_entry, pdf_entry, swf_entry, txt_entry, rtf_entry,
      zip_entry, doc_entry, xls_entry, ppt_entry, other_entry]
    rfl (by simp) (by decide)

/-- C6: `register_filetypes` prepends the supplied triples to the registry,
first-match order decides when several predicates match, and whenever some
newly registered predicate matches, classification over the combined registry
agrees with classification over the new entries alone — the extension point
takes precedence over the default set. -/
theorem register_filetypes_precedence
    (types old : List FileTypeEntry) (name : String) :
    register_filetypes types old = types ++ old
    ∧ (∀ l₁ t l₂, register_filetypes types old = l₁ ++ t :: l₂ →
        (∀ u ∈ l₁, u.test name = false) → t.test name = true →
        determine_file_type (register_filetypes types old) name = some t.key)
    ∧ ((∃ t ∈ types, t.test name = true) →
        determine_file_type (register_filetypes types old) name
          = determine_file_type types name) := by
  refine ⟨rfl, ?_, ?_⟩
  · intro l₁ t l₂ hsplit hl ht
    rw [hsplit]
    exact determine_of_split l₁ t l₂ name hl ht
  · intro hex
    have hsome : (types.find? (fun t => t.test name)).isSome :=
      List.find?_isSome.mpr hex
    obtain ⟨t₀, ht₀⟩ := Option.isSome_iff_exists.mp hsome
    show determine_file_type (types ++ old) name = determine_file_type types name
    unfold determine_file_type
    rw [find?_append_of_some old ht₀, ht₀]

/-- Witness for C6 at a concrete input: a registered `.jpg` entry prepended in
front of the default registry wins over the default `image` entry, which also
matches. -/
theorem register_filetypes_precedence_witness :
    determine_file_type (register_filetypes [custom_entry] default_filetypes)
      "a.jpg" = some "customimg"
    ∧ image_entry.test "a.jpg" = true :=
  ⟨(register_filetypes_precedence [custom_entry] default_filetypes "a.jpg").2.1
      [] custom_entry default_filetypes rfl (by simp) (by decide),
   by decide⟩

/-- C7: with multiple extensions the registry walk decides: in the default
registry `foobar.jpg.pdf` classifies as `pdf` (the earlier `image` entry does
not match because its pattern is anchored at the end), while `foobar.pdf.jpg`
classifies as `image`. -/
theorem determine_file_type_multiple_extensions :
    determine_file_type default_filetypes "foobar.jpg.pdf" = some "pdf"
    ∧ image_entry.test "foobar.jpg.pdf" = false
    ∧ determine_file_type default_filetypes "foobar.pdf.jpg" = some "image" := by
  decide

/-- C10: on a non-empty registry `determine_file_type` always returns the key
of some registry entry; on the empty registry the final fallback indexing has
no value to return (`none`, the `IndexError` of `self.filetypes[-1][0]`). -/
theorem determine_file_type_total (fts : List FileTypeEntry) (name : String) :
    (fts ≠ [] → ∃ t ∈ fts, determine_file_type fts name = some t.key)
    ∧ determine_file_type [] name = none := by
  refine ⟨?_, rfl⟩
  intro hne
  cases hf : fts.find? (fun t => t.test name) with
  | some t =>
    refine ⟨t, List.mem_of_find?_eq_some hf, ?_⟩
    unfold determine_file_type
    rw [hf]
  | none =>
    refine ⟨fts.getLast hne, List.getLast_mem hne, ?_⟩
    unfold determine_file_type
    rw [hf, List.getLast?_eq_getLast_of_ne_nil hne]
    rfl

/-- Witness for C10 at a concrete input: the default registry is non-empty and
classifies `mystery.bin` as the key of one of its entries. -/
theorem determine_file_type_total_witness :
    (determine_file_type default_filetypes "mystery.bin").isSome = true := by
  obtain ⟨t, ht, hd⟩ := (determine_file_type_total default_filetypes "mystery.bin").1
    (by simp [default_filetypes])
  rw [hd]
  rfl

/-! Helper lemmas about `save`. -/

lemma save_elim {fts : List FileTypeEntry} {env : SaveEnv} {s s' : MediaFileState}
    {eff : SaveEffects} (h : save fts env s = some (s', eff)) :
    ∃ ty ft rot,
      determine_file_type fts s.fileName = some ty
      ∧ imageStep fts env ty = some (ft, rot)
      ∧ s' = { s with created := createdStep env s, type := ft,
                      file_size := (sizeStep env s).1 }
      ∧ eff = { sizeErrorLogged := (sizeStep env s).2, rotatedBy := rot,
                deletedFiles := deleteStep s } := by
  unfold save at h
  rw [Option.bind_eq_some] at h
  obtain ⟨ty, hd, hmap⟩ := h
  rw [Option.map_eq_some'] at hmap
  obtain ⟨fr, hi, hfr⟩ := hmap
  obtain ⟨hs, he⟩ := Prod.mk.injEq .. ▸ hfr
  exact ⟨ty, fr.1, fr.2, hd, hi, hs.symm, he.symm⟩

lemma determine_default_star :
    determine_file_type default_filetypes "***" = some "other" := by decide

lemma star_matches_no_specific :
    ∀ t ∈ default_filetypes.dropLast, t.test "***" = false := by decide

lemma imageStep_default_some (env : SaveEnv) (ty : String) :
    ∃ fr, imageStep default_filetypes env ty = some fr := by
  unfold imageStep
  by_cases h : ty = "image"
  · rw [if_pos h]
    cases ho : env.image.opens
    · simp [determine_default_star]
    · cases env.image.exif with
      | none => simp
      | some orientation =>
        by_cases hr : rotationFor orientation ≠ 0 <;> simp [hr]
  · rw [if_neg h]
    exact ⟨(ty, none), rfl⟩

lemma determine_default_some (name : String) :
    ∃ ty, determine_file_type default_filetypes name = some ty := by
  unfold determine_file_type
  cases hf : default_filetypes.find? (fun t => t.test name) with
  | some t => exact ⟨t.key, rfl⟩
  | none => exact ⟨"other", rfl⟩

lemma save_default_exists (env : SaveEnv) (s : MediaFileState) :
    ∃ s' eff, save default_filetypes env s = some (s', eff) := by
  obtain ⟨ty, hd⟩ := determine_default_some s.fileName
  obtain ⟨fr, hi⟩ := imageStep_default_some env ty
  exact ⟨_, _, by unfold save; rw [hd, Option.some_bind, hi, Option.map_some']⟩

/-! Claim theorems about `save`. -/

/-- C2: when a file classified as `image` cannot be opened as an image (both
open attempts raise), `save` completes without surfacing an error and silently
reclassifies via `determine_file_type('***')`; the sentinel matches no
specific predicate of the default registry, so the stored type ends up the
catch-all `other`, not `image`. -/
theorem save_image_open_failure (env : SaveEnv) (s : MediaFileState)
    (hty : determine_file_type default_filetypes s.fileName = some "image")
    (hopen : env.image.opens = false) :
    ∃ s' eff, save default_filetypes env s = some (s', eff)
      ∧ s'.type = "other"
      ∧ determine_file_type default_filetypes "***" = some "other"
      ∧ (∀ t ∈ default_filetypes.dropLast, t.test "***" = false) := by
  have himg : imageStep default_filetypes env "image" = some ("other", none) := by
    unfold imageStep
    rw [if_pos rfl, hopen]
    simp [determine_default_star]
  refine ⟨{ s with created := createdStep env s
                   type := "other"
                   file_size := (sizeStep env s).1 },
          { sizeErrorLogged := (sizeStep env s).2
            rotatedBy := none
            deletedFiles := deleteStep s },
          ?_, rfl, determine_default_star, star_matches_no_specific⟩
  unfold save
  rw [hty, Option.some_bind, himg, Option.map_some']

/-- Witness for C2 at a concrete input: `picture.jpg` classifies as `image`,
but with both image opens failing the saved record's type is `other`. -/
theorem save_image_open_failure_witness :
    determine_file_type default_filetypes mfPicture.fileName = some "image"
    ∧ envOpenFail.image.opens = false
    ∧ (save default_filetypes envOpenFail mfPicture).map (fun r => r.1.type)
        = some "other" :=
  ⟨by decide, rfl, by
    obtain ⟨s', eff, hsv, hty, _, _⟩ :=
      save_image_open_failure envOpenFail mfPicture (by decide) rfl
    rw [hsv, Option.map_some', hty]⟩

/-- C3: the cleanup step of `save` deletes the file remembered at construction
exactly once when the current file name differs from it; when no file was
stored at construction (`_original_file_name` unset, as after `__init__` with
an empty file name) no delete is ever issued, and no other delete happens. -/
theorem save_cleanup (fts : List FileTypeEntry) (env : SaveEnv)
    (s s' : MediaFileState) (eff : SaveEffects)
    (hsave : save fts env s = some (s', eff)) :
    (∀ orig, s.original_file_name = some orig → orig ≠ "" → s.fileName ≠ orig →
      eff.deletedFiles = [orig])
    ∧ (s.original_file_name = none → eff.deletedFiles = [])
    ∧ (∀ orig, s.original_file_name = some orig → s.fileName = orig →
      eff.deletedFiles = [])
    ∧ init_original_file_name "" = none := by
  obtain ⟨ty, ft, rot, hd, hi, hs, he⟩ := save_elim hsave
  subst he
  refine ⟨?_, ?_, ?_, rfl⟩
  · intro orig ho hne hch
    simp [deleteStep, ho, hne, hch]
  · intro ho
    simp [deleteStep, ho]
  · intro orig ho heq
    simp [deleteStep, ho, heq]

/-- Witness for C3 at a concrete input: replacing `old.txt` by `new.txt`
issues exactly one delete, of `old.txt`. -/
theorem save_cleanup_witness :
    save default_filetypes envPlain mfReplaced = some (mfReplacedSaved, effReplaced)
    ∧ effReplaced.deletedFiles = ["old.txt"] :=
  ⟨by decide,
   (save_cleanup default_filetypes envPlain mfReplaced mfReplacedSaved effReplaced
     (by decide)).1 "old.txt" rfl (by decide) (by decide)⟩

/-- C4: during a save in which the file classifies as `image` and the image
opens, EXIF orientation 3 maps to 180 degrees, 6 to 270, 8 to 90, any other
value to 0, and the image is rotated and overwritten in place exactly when the
mapped rotation is nonzero; with no readable EXIF nothing is rotated. -/
theorem save_exif_rotation (fts : List FileTypeEntry) (env : SaveEnv)
    (s s' : MediaFileState) (eff : SaveEffects)
    (hsave : save fts env s = some (s', eff))
    (hty : determine_file_type fts s.fileName = some "image")
    (hopen : env.image.opens = true) :
    rotationFor (some 3) = 180 ∧ rotationFor (some 6) = 270
    ∧ rotationFor (some 8) = 90
    ∧ (∀ x : Option Int, x ≠ some 3 → x ≠ some 6 → x ≠ some 8 → rotationFor x = 0)
    ∧ (∀ o, env.image.exif = some o →
        eff.rotatedBy = if rotationFor o ≠ 0 then some (rotationFor o) else none)
    ∧ (env.image.exif = none → eff.rotatedBy = none) := by
  obtain ⟨ty, ft, rot, hd, hi, hs, he⟩ := save_elim hsave
  rw [hd] at hty
  have hty' : ty = "image" := Option.some_inj.mp hty
  subst hty'
  subst he
  unfold imageStep at hi
  rw [if_pos rfl, hopen] at hi
  refine ⟨by decide, by decide, by decide, ?_, ?_, ?_⟩
  · intro x h3 h6 h8
    unfold rotationFor
    rw [if_neg h3, if_neg h6, if_neg h8]
  · intro o ho
    rw [ho] at hi
    simp only [if_true] at hi
    by_cases hr : rotationFor o ≠ 0
    · rw [if_pos hr] at hi
      injection hi with h
      rw [if_pos hr]
      exact congrArg Prod.snd h.symm
    · rw [if_neg hr] at hi
      injection hi with h
      rw [if_neg hr]
      exact congrArg Prod.snd h.symm
  · intro ho
    rw [ho] at hi
    simp only [if_true] at hi
    injection hi with h
    exact congrArg Prod.snd h.symm

/-- Witness for C4 at a concrete input: EXIF orientation 6 makes `save` rotate
`photo.jpeg` by 270 degrees and overwrite it. -/
theorem save_exif_rotation_witness :
    determine_file_type default_filetypes mfPhoto.fileName = some "image"
    ∧ envExif6.image.opens = true
    ∧ effPhoto.rotatedBy = some 270 :=
  ⟨by decide, rfl, by
    have h := (save_exif_rotation default_filetypes envExif6 mfPhoto mfPhotoSaved
      effPhoto (by decide) (by decide) rfl).2.2.2.2.1 (some 6) rfl
    rw [h]
    decide⟩

/-- C5 counterexample: `picture.jpg` classifies as `image`, yet when the image
cannot be opened the saved record's stored type is `other` — not the
classification of the current file name. The claim that after every save the
stored type equals the classification of `self.file.name` is therefore false. -/
theorem save_type_counterexample :
    determine_file_type default_filetypes mfPicture.fileName = some "image"
    ∧ (save default_filetypes envOpenFail mfPicture).map (fun r => r.1.type)
        = some "other" := by decide

/-- C5 (amended): after every save the stored type is freshly derived during
the save and never carried over from the prior value of the `type` field: it
equals the classification of the current file name except when that
classification is `image` and the image cannot be opened, in which case it is
the catch-all classification of the sentinel `'***'`. In particular the final
type is identical for any two states differing only in their prior `type`. -/
theorem save_type_rederived (fts : List FileTypeEntry) (env : SaveEnv)
    (s s' : MediaFileState) (eff : SaveEffects)
    (hsave : save fts env s = some (s', eff)) :
    (∀ ty, determine_file_type fts s.fileName = some ty →
      ((ty = "image" ∧ env.image.opens = false →
        determine_file_type fts "***" = some s'.type)
      ∧ (¬(ty = "image" ∧ env.image.opens = false) → s'.type = ty)))
    ∧ (∀ x s₂' eff₂, save fts env { s with type := x } = some (s₂', eff₂) →
        s₂'.type = s'.type) := by
  obtain ⟨ty₀, ft, rot, hd, hi, hs, he⟩ := save_elim hsave
  have hstype : s'.type = ft := by rw [hs]
  constructor
  · intro ty hdty
    rw [hd] at hdty
    have hty0 : ty₀ = ty := Option.some_inj.mp hdty
    subst hty0
    constructor
    · rintro ⟨himg, hopen⟩
      subst himg
      unfold imageStep at hi
      rw [if_pos rfl, hopen] at hi
      simp only [Bool.false_eq_true, if_false] at hi
      cases hstar : determine_file_type fts "***" with
      | none => rw [hstar] at hi; cases hi
      | some ty2 =>
        rw [hstar] at hi
        simp only [Option.some_inj, Prod.mk.injEq] at hi
        rw [hstype, hi.1]
    · intro hnot
      rw [hstype]
      unfold imageStep at hi
      by_cases himg : ty₀ = "image"
      · rw [if_pos himg] at hi
        have hopen : env.image.opens = true := by
          cases hop : env.image.opens
          · exact absurd ⟨himg, hop⟩ hnot
          · rfl
        rw [hopen] at hi
        simp only [if_true] at hi
        cases hexif : env.image.exif with
        | none =>
          rw [hexif] at hi
          simp only [Option.some_inj, Prod.mk.injEq] at hi
          exact hi.1.symm
        | some o =>
          rw [hexif] at hi
          simp only [Option.some_inj, Prod.mk.injEq] at hi
          by_cases hr : rotationFor o ≠ 0
          · rw [if_pos hr] at hi
            simp only [Option.some_inj, Prod.mk.injEq] at hi
            exact hi.1.symm
          · rw [if_neg hr] at hi
            simp only [Option.some_inj, Prod.mk.injEq] at hi
            exact hi.1.symm
      · rw [if_neg himg] at hi
        simp only [Option.some_inj, Prod.mk.injEq] at hi
        exact hi.1.symm
  · intro x s₂' eff₂ h₂
    obtain ⟨ty₂, ft₂, rot₂, hd₂, hi₂, hs₂, he₂⟩ := save_elim h₂
    have hfn : ({ s with type := x } : MediaFileState).fileName = s.fileName := rfl
    rw [hfn, hd] at hd₂
    have hty2 : ty₀ = ty₂ := Option.some_inj.mp hd₂
    subst hty2
    rw [hi] at hi₂
    simp only [Option.some_inj, Prod.mk.injEq] at hi₂
    rw [hs₂, hstype]
    exact hi₂.1.symm

/-- Witness for the amended C5 at a concrete input: for a non-image file the
saved type is exactly the classification of the current file name. -/
theorem save_type_rederived_witness :
    mfReplacedSaved.type = "txt" :=
  ((save_type_rederived default_filetypes envPlain mfReplaced mfReplacedSaved
      effReplaced (by decide)).1 "txt" (by decide)).2 (by decide)

/-- C8 counterexample: for a record already holding `file_size = 42`, a failing
size read during save logs the error but leaves the field at 42 — not null as
the claim states. -/
theorem save_size_error_counterexample :
    envSizeErr.sizeResult = SizeResult.err
    ∧ mfSized.file_size = some 42
    ∧ (save default_filetypes envSizeErr mfSized).map
        (fun r => (r.1.file_size, r.2.sizeErrorLogged)) = some (some 42, true) := by
  decide

/-- C8 (amended): when reading the file size raises, the error is logged, the
`file_size` field is left unchanged (hence still null when it was never set,
as on a newly created record), and the save proceeds to completion. -/
theorem save_size_error_logged_and_unchanged (env : SaveEnv) (s : MediaFileState)
    (herr : env.sizeResult = SizeResult.err) (hfile : s.fileName ≠ "") :
    ∃ s' eff, save default_filetypes env s = some (s', eff)
      ∧ eff.sizeErrorLogged = true
      ∧ s'.file_size = s.file_size
      ∧ (s.file_size = none → s'.file_size = none) := by
  obtain ⟨s', eff, hsave⟩ := save_default_exists env s
  obtain ⟨ty, ft, rot, hd, hi, hs, he⟩ := save_elim hsave
  have hsz : sizeStep env s = (s.file_size, true) := by
    unfold sizeStep
    rw [if_neg hfile, herr]
  refine ⟨s', eff, hsave, ?_, ?_, ?_⟩
  · rw [he, hsz]
  · rw [hs, hsz]
  · intro h0
    rw [hs, hsz, h0]

/-- Witness for the amended C8 at a concrete input: saving `mfSized` with a
failing size read logs the error and keeps `file_size` at its prior value. -/
theorem save_size_error_witness :
    envSizeErr.sizeResult = SizeResult.err
    ∧ (save default_filetypes envSizeErr mfSized).map
        (fun r => (r.1.file_size, r.2.sizeErrorLogged))
      = some (mfSized.file_size, true) :=
  ⟨rfl, by
    obtain ⟨s', eff, hsv, hlog, hfs, _⟩ :=
      save_size_error_logged_and_unchanged envSizeErr mfSized rfl (by decide)
    rw [hsv, Option.map_some', hfs, hlog]⟩

/-- C9: saving a `Category` with an empty slug sets the slug to the slugified
title — title `Test Category` yields `test-category` — while a category whose
slug is non-empty is saved unchanged. -/
theorem category_save_slug :
    Category.save { title := "Test Category", slug := "" }
      = { title := "Test Category", slug := "test-category" }
    ∧ (∀ c : Category, c.slug ≠ "" → Category.save c = c) := by
  refine ⟨by decide, ?_⟩
  intro c h
  unfold Category.save
  rw [if_neg h]

/-- Witness for C9 at a concrete input: an explicit slug is left untouched. -/
theorem category_save_slug_witness :
    Category.save { title := "Docs", slug := "docs-2" }
      = { title := "Docs", slug := "docs-2" } :=
  category_save_slug.2 { title := "Docs", slug := "docs-2" } (by decide)

end Medialibrary
